import Mathlib

/-!
Shallow embedding of the filter-cascade and aggregation pipeline of
`src/dashPIB.py` (Dashboard-PIB).  Pandas DataFrames are modelled as lists of
records, numeric columns as rationals, and nullable columns as `Option`.
Each definition is translated from the Python source; line numbers refer to
`src/dashPIB.py`.
-/

namespace DashPIB

/-- A row of the `municipio` dimension as selected by `obter_municipios_por_ufs`
(lines 201-213): code, name, federative-unit key, capital flag. -/
structure Municipio where
  codigo_municipio_dv : Nat
  nome_municipio : String
  cd_uf : String
  municipio_capital : Bool
  deriving DecidableEq

/-- A joined GDP fact row as selected by `obter_dados_filtrados` (lines 223-236).
`longitude` and `latitude` may be absent (NULL); `vl_bruto_total` and
`vl_subsidios` are likewise nullable and unused downstream. -/
structure Fato where
  ano_pib : Int
  codigo_municipio_dv : Nat
  vl_agropecuaria : ℚ
  vl_industria : ℚ
  vl_servicos : ℚ
  vl_administracao : ℚ
  vl_bruto_total : Option ℚ
  vl_subsidios : Option ℚ
  vl_pib : ℚ
  vl_pib_per_capta : ℚ
  nome_municipio : String
  cd_uf : String
  municipio_capital : Bool
  longitude : Option ℚ
  latitude : Option ℚ
  sigla_uf : String
  nome_uf : String
  cd_regiao : String
  deriving DecidableEq

/-- `obter_municipios_por_ufs(ufs)` (lines 201-213): an empty unit list returns
an empty frame; otherwise the municipality rows whose `cd_uf` is in `ufs`
(the SQL `WHERE cd_uf IN (...)`); the `ORDER BY nome_municipio` is dropped
here because every property proved below is order-independent. -/
def obterMunicipiosPorUfs (tabela : List Municipio) (ufs : List String) :
    List Municipio :=
  if ufs.isEmpty then []
  else tabela.filter (fun m => decide (m.cd_uf ∈ ufs))

/-- Line 684: the name-membership filter over the municipality frame followed by the
projection onto the code column and `tolist()`. -/
def codigosMunicipiosSelecionados (municipios_df : List Municipio)
    (nomes : List String) : List Nat :=
  (municipios_df.filter (fun m => decide (m.nome_municipio ∈ nomes))).map
    (fun m => m.codigo_municipio_dv)

/-- Lines 680-684 of `main`: with an empty name selection the dashboard warns
("selecione ao menos um município") and returns before resolving any code or
fetching any fact (`none`); otherwise it resolves the selected names against
the current-unit municipality frame. -/
def resolverSelecao (municipios_df : List Municipio) (nomes : List String) :
    Option (List Nat) :=
  if nomes.isEmpty then none
  else some (codigosMunicipiosSelecionados municipios_df nomes)

/-- `obter_dados_filtrados` fetch (lines 215-239): empty unit or municipality
code lists short-circuit to an empty frame; otherwise the fact rows with
`ano_pib BETWEEN anos.1 AND anos.2` and `codigo_municipio_dv IN codigos`. -/
def obterDadosFiltrados (facts : List Fato) (anoInicial anoFinal : Int)
    (ufs : List String) (codigos : List Nat) : List Fato :=
  if ufs.isEmpty || codigos.isEmpty then []
  else
    facts.filter (fun r =>
      decide (anoInicial ≤ r.ano_pib ∧ r.ano_pib ≤ anoFinal ∧
        r.codigo_municipio_dv ∈ codigos))

/-- Python `int(...)` applied to a quotient: truncation toward zero. -/
def ratTrunc (q : ℚ) : Int :=
  if 0 ≤ q then ⌊q⌋ else ⌈q⌉

/-- The per-row lambda of lines 243-247:
the quotient of the gdp column by the per-capita column, truncated by
Python `int()`, when the per-capita value is positive, else 0. -/
def populacaoEstimada (r : Fato) : Int :=
  if 0 < r.vl_pib_per_capta then ratTrunc (r.vl_pib / r.vl_pib_per_capta)
  else 0

/-- Truncation fixes every integer. -/
theorem ratTrunc_intCast (z : Int) : ratTrunc (z : ℚ) = z := by
  unfold ratTrunc
  by_cases h : (0 : ℚ) ≤ (z : ℚ)
  · rw [if_pos h, Int.floor_intCast]
  · rw [if_neg h, Int.ceil_intCast]

/-- A helper building a fact row from the four sector values, the GDP value
and the per-capita value; the dimension attributes take fixed defaults.
Used only to write down concrete rows for counterexamples and witnesses. -/
def mkFato (ano : Int) (codigo : Nat) (nome : String) (agro ind serv adm pib percap : ℚ)
    (lon lat : Option ℚ) : Fato where
  ano_pib := ano
  codigo_municipio_dv := codigo
  vl_agropecuaria := agro
  vl_industria := ind
  vl_servicos := serv
  vl_administracao := adm
  vl_bruto_total := none
  vl_subsidios := none
  vl_pib := pib
  vl_pib_per_capta := percap
  nome_municipio := nome
  cd_uf := "35"
  municipio_capital := false
  longitude := lon
  latitude := lat
  sigla_uf := "SP"
  nome_uf := "São Paulo"
  cd_regiao := "3"

/-- A baseline fact row used by the C7 witness. -/
def fatoBase : Fato := mkFato 2020 100 "Alfa" 0 0 0 0 0 0 none none

/-- A row with negative GDP and positive per-capita value. -/
def fatoC7neg : Fato := mkFato 2020 100 "Alfa" 0 0 0 0 (-10) 2 none none

/-- A row whose GDP over per-capita quotient is 7/2. -/
def fatoC10 : Fato := mkFato 2020 100 "Alfa" 0 0 0 0 7 2 none none

/-- A municipality of unit "SP" used by the C1 counterexample and the C8
witness. -/
def municipioAlfa : Municipio where
  codigo_municipio_dv := 100
  nome_municipio := "Alfa"
  cd_uf := "SP"
  municipio_capital := false

/-- C1: with the unit "SP" selected and one municipality available, the empty
name selection does NOT resolve to the full code list `[100]`: the dashboard
refuses to proceed (`none`), contradicting the wildcard reading. -/
theorem C1_counterexample :
    resolverSelecao [municipioAlfa] [] = none ∧
      resolverSelecao [municipioAlfa] [] ≠
        some ([municipioAlfa].map (fun m => m.codigo_municipio_dv)) := by
  constructor
  · rfl
  · decide

/-- C1 (amended): an empty municipality selection is not a wildcard; the
dashboard warns and halts before resolving codes, and even the fact fetch
itself returns the empty frame when given an empty code list. -/
theorem C1_empty_selection_halts (municipios_df : List Municipio)
    (facts : List Fato) (anoInicial anoFinal : Int) (ufs : List String) :
    resolverSelecao municipios_df [] = none ∧
      obterDadosFiltrados facts anoInicial anoFinal ufs [] = [] := by
  constructor
  · rfl
  · simp [obterDadosFiltrados]

/-- C7: a loaded fact row with a negative GDP and a positive per-capita value
yields a negative estimated population, contradicting "the result is never
negative". -/
theorem C7_counterexample :
    populacaoEstimada fatoC7neg = -5 ∧ populacaoEstimada fatoC7neg < 0 := by
  have h2 : fatoC7neg.vl_pib / fatoC7neg.vl_pib_per_capta = ((-5 : Int) : ℚ) := by
    norm_num [fatoC7neg, mkFato]
  have h1 : populacaoEstimada fatoC7neg = -5 := by
    rw [populacaoEstimada, if_pos (by norm_num [fatoC7neg, mkFato]), h2,
      ratTrunc_intCast]
  exact ⟨h1, by rw [h1]; norm_num⟩

/-- C7 (amended): `estimated_population` is the quotient
`vl_pib / vl_pib_per_capta` truncated toward zero when
`vl_pib_per_capta > 0` and `0` otherwise — a total computation with no
division-by-zero and no NaN — and it is non-negative whenever the row GDP
is non-negative. -/
theorem C7_amended (r : Fato) :
    (0 < r.vl_pib_per_capta →
      populacaoEstimada r = ratTrunc (r.vl_pib / r.vl_pib_per_capta)) ∧
    (r.vl_pib_per_capta ≤ 0 → populacaoEstimada r = 0) ∧
    (0 ≤ r.vl_pib → 0 ≤ populacaoEstimada r) := by
  refine ⟨fun h => ?_, fun h => ?_, fun h => ?_⟩
  · simp [populacaoEstimada, h]
  · simp [populacaoEstimada, not_lt.mpr h]
  · by_cases hpc : 0 < r.vl_pib_per_capta
    · have hq : 0 ≤ r.vl_pib / r.vl_pib_per_capta :=
        div_nonneg h (le_of_lt hpc)
      simp only [populacaoEstimada, if_pos hpc, ratTrunc, if_pos hq]
      exact Int.floor_nonneg.mpr hq
    · simp [populacaoEstimada, hpc]

/-- C7 witness: a concrete row with non-negative GDP has a non-negative
estimated population. -/
theorem C7_witness :
    0 ≤ fatoBase.vl_pib ∧
      0 ≤ populacaoEstimada fatoBase :=
  ⟨by norm_num [fatoBase, mkFato],
    (C7_amended fatoBase).2.2 (by norm_num [fatoBase, mkFato])⟩

/-- C8: after any sequence of unit / municipality selection changes the codes
resolved by `main` (lines 641 and 684) come from the municipality frame that
was re-derived from the *current* unit selection, so every resolved code
belongs to a municipality of a currently selected unit.  Resolution is a pure
function of the current state, so this covers every state reached after each
change. -/
theorem C8_cascade (tabela : List Municipio) (ufs nomes : List String)
    (codigos : List Nat)
    (h : resolverSelecao (obterMunicipiosPorUfs tabela ufs) nomes
        = some codigos) :
    ∀ c ∈ codigos, ∃ m ∈ tabela, m.codigo_municipio_dv = c ∧ m.cd_uf ∈ ufs := by
  intro c hc
  unfold resolverSelecao at h
  by_cases hn : nomes.isEmpty
  · simp [hn] at h
  · rw [if_neg hn] at h
    have hcodes : codigos =
        codigosMunicipiosSelecionados (obterMunicipiosPorUfs tabela ufs)
          nomes := by
      exact (Option.some.injEq _ _).mp h.symm
    subst hcodes
    unfold codigosMunicipiosSelecionados at hc
    rcases List.mem_map.mp hc with ⟨m, hm, hmc⟩
    have hm2 := (List.mem_filter.mp hm).1
    unfold obterMunicipiosPorUfs at hm2
    by_cases hu : ufs.isEmpty
    · simp [hu] at hm2
    · rw [if_neg hu] at hm2
      rcases List.mem_filter.mp hm2 with ⟨hmt, hmuf⟩
      exact ⟨m, hmt, hmc, of_decide_eq_true hmuf⟩

/-- C8 witness: with the unit "SP" selected and the name "Alfa" chosen, the
resolved code 100 belongs to a municipality of a selected unit. -/
theorem C8_witness :
    ∃ m ∈ [municipioAlfa], m.codigo_municipio_dv = 100 ∧ m.cd_uf ∈ ["SP"] :=
  C8_cascade [municipioAlfa] ["SP"] ["Alfa"] [100] (by decide) 100 (by decide)

/-- C10: when `vl_pib_per_capta > 0`, the stored population is the exact
quotient truncated toward zero: it never exceeds the quotient in magnitude
and differs from it by strictly less than 1 (hence by at most 1). -/
theorem C10_truncation (r : Fato) (h : 0 < r.vl_pib_per_capta) :
    populacaoEstimada r = ratTrunc (r.vl_pib / r.vl_pib_per_capta) ∧
    |(populacaoEstimada r : ℚ) - r.vl_pib / r.vl_pib_per_capta| < 1 ∧
    |(populacaoEstimada r : ℚ)| ≤ |r.vl_pib / r.vl_pib_per_capta| := by
  have hdef : populacaoEstimada r = ratTrunc (r.vl_pib / r.vl_pib_per_capta) := by
    simp [populacaoEstimada, h]
  refine ⟨hdef, ?_, ?_⟩
  · rw [hdef]
    set q : ℚ := r.vl_pib / r.vl_pib_per_capta with hq
    by_cases hq0 : 0 ≤ q
    · rw [ratTrunc, if_pos hq0]
      have h1 : (⌊q⌋ : ℚ) ≤ q := Int.floor_le q
      have h2 : q < (⌊q⌋ : ℚ) + 1 := Int.lt_floor_add_one q
      rw [abs_sub_comm, abs_of_nonneg (by linarith)]
      linarith
    · rw [ratTrunc, if_neg hq0]
      have h1 : q ≤ (⌈q⌉ : ℚ) := Int.le_ceil q
      have h2 : (⌈q⌉ : ℚ) < q + 1 := Int.ceil_lt_add_one q
      rw [abs_of_nonneg (by linarith)]
      linarith
  · rw [hdef]
    set q : ℚ := r.vl_pib / r.vl_pib_per_capta with hq
    by_cases hq0 : 0 ≤ q
    · rw [ratTrunc, if_pos hq0]
      have h1 : (⌊q⌋ : ℚ) ≤ q := Int.floor_le q
      have h3 : (0 : ℚ) ≤ (⌊q⌋ : ℚ) := by
        exact_mod_cast Int.floor_nonneg.mpr hq0
      rw [abs_of_nonneg h3, abs_of_nonneg hq0]
      exact h1
    · rw [ratTrunc, if_neg hq0]
      push_neg at hq0
      have h1 : q ≤ (⌈q⌉ : ℚ) := Int.le_ceil q
      have h3 : (⌈q⌉ : ℚ) ≤ 0 := by
        have hc : ⌈q⌉ ≤ (0 : Int) := Int.ceil_le.mpr (by push_cast; linarith)
        exact_mod_cast hc
      rw [abs_of_nonpos h3, abs_of_nonpos (le_of_lt hq0)]
      linarith

/-- C10 witness: for a row with GDP 7 and per-capita 2 the stored population
is the truncated quotient of 7/2 and lies within 1 of it. -/
theorem C10_witness :
    populacaoEstimada fatoC10
        = ratTrunc (fatoC10.vl_pib / fatoC10.vl_pib_per_capta) ∧
    |((populacaoEstimada fatoC10 : Int) : ℚ)
        - fatoC10.vl_pib / fatoC10.vl_pib_per_capta| < 1 ∧
    |((populacaoEstimada fatoC10 : Int) : ℚ)|
        ≤ |fatoC10.vl_pib / fatoC10.vl_pib_per_capta| :=
  C10_truncation fatoC10 (by norm_num [fatoC10, mkFato])

/-- Pandas `df[col].sum()` over a frame. -/
def sumBy (df : List Fato) (f : Fato → ℚ) : ℚ := (df.map f).sum

/-- Line 274: the sum of the services column over the slice. -/
def totalServicos (df : List Fato) : ℚ := sumBy df (fun r => r.vl_servicos)

/-- Line 273: the sum of the industry column over the slice. -/
def totalIndustria (df : List Fato) : ℚ := sumBy df (fun r => r.vl_industria)

/-- Line 272: the sum of the agriculture column over the slice. -/
def totalAgro (df : List Fato) : ℚ := sumBy df (fun r => r.vl_agropecuaria)

/-- Line 275: the sum of the public-administration column over the slice. -/
def totalAdm (df : List Fato) : ℚ := sumBy df (fun r => r.vl_administracao)

/-- One step of Python `max(..., key=...)`: the running best is replaced only
when the key of the new element is strictly greater, so the first maximal element
encountered wins ties. -/
def pyMaxStep (acc p : String × ℚ) : String × ℚ :=
  if acc.2 < p.2 then p else acc

/-- Python `max(iterable, key=get)` over an association list. -/
def pyMax : List (String × ℚ) → Option (String × ℚ)
  | [] => none
  | p :: ps => some (ps.foldl pyMaxStep p)

/-- Lines 276-283: the `setores_valores` dict in its insertion order
(Serviços, Indústria, Agropecuária, Administração) and
`max(setores_valores, key=setores_valores.get)`, with the dead `else "N/A"`
branch kept. -/
def maiorSetorQuad (serv ind agro adm : ℚ) : String :=
  match pyMax [("Serviços", serv), ("Indústria", ind),
      ("Agropecuária", agro), ("Administração", adm)] with
  | some p => p.1
  | none => "N/A"

/-- The dominant-sector KPI of `criar_cards_kpi` applied to the final-year
slice. -/
def maiorSetor (df : List Fato) : String :=
  maiorSetorQuad (totalServicos df) (totalIndustria df) (totalAgro df)
    (totalAdm df)

/-- Characterization of the Python `max` over the four-entry sector dict: the
winner has the maximal value, and every sector listed before it in the dict
insertion order has a strictly smaller value. -/
theorem maiorSetorQuad_spec (s i a d : ℚ) :
    (maiorSetorQuad s i a d = "Serviços" → i ≤ s ∧ a ≤ s ∧ d ≤ s) ∧
    (maiorSetorQuad s i a d = "Indústria" → s < i ∧ a ≤ i ∧ d ≤ i) ∧
    (maiorSetorQuad s i a d = "Agropecuária" → s < a ∧ i < a ∧ d ≤ a) ∧
    (maiorSetorQuad s i a d = "Administração" → s < d ∧ i < d ∧ a < d) := by
  unfold maiorSetorQuad pyMax
  simp only [List.foldl, pyMaxStep]
  split_ifs with h1 h2 h3 h4 h5 h6 h7 <;>
    simp_all <;>
    first
      | (constructor <;> linarith)
      | linarith

/-- C3: sector sums agriculture 10, industry 10, services 5 (administration 0)
make the code report "Indústria", not "Agropecuária": the dict enumerates
services first and Python `max` keeps the earliest maximum, and the
administration sector also participates, contradicting the claimed
agriculture-first three-sector argmax. -/
theorem C3_counterexample :
    maiorSetor [mkFato 2020 100 "Alfa" 10 10 5 0 0 0 none none]
        = "Indústria" ∧
      maiorSetor [mkFato 2020 100 "Alfa" 10 10 5 0 0 0 none none]
        ≠ "Agropecuária" := by
  have h : maiorSetor [mkFato 2020 100 "Alfa" 10 10 5 0 0 0 none none]
      = "Indústria" := by
    rw [maiorSetor]
    have hs : totalServicos [mkFato 2020 100 "Alfa" 10 10 5 0 0 0 none none]
        = 5 := by simp [totalServicos, sumBy, mkFato]
    have hi : totalIndustria [mkFato 2020 100 "Alfa" 10 10 5 0 0 0 none none]
        = 10 := by simp [totalIndustria, sumBy, mkFato]
    have ha : totalAgro [mkFato 2020 100 "Alfa" 10 10 5 0 0 0 none none]
        = 10 := by simp [totalAgro, sumBy, mkFato]
    have hd : totalAdm [mkFato 2020 100 "Alfa" 10 10 5 0 0 0 none none]
        = 0 := by simp [totalAdm, sumBy, mkFato]
    rw [hs, hi, ha, hd]
    rw [maiorSetorQuad, pyMax]
    norm_num [List.foldl, pyMaxStep]
  exact ⟨h, by rw [h]; decide⟩

/-- C3 (amended): the dominant-sector KPI is the argmax over the four sectors
services, industry, agriculture and public administration of their summed
values in the final-year slice, with ties broken by the first position in
that dict insertion order (services, then industry, then agriculture, then
administration); in particular sums agriculture 10, industry 10, services 5,
administration 0 yield industry. -/
theorem C3_amended (df : List Fato) :
    (maiorSetor df = "Serviços" →
      totalIndustria df ≤ totalServicos df ∧
        totalAgro df ≤ totalServicos df ∧ totalAdm df ≤ totalServicos df) ∧
    (maiorSetor df = "Indústria" →
      totalServicos df < totalIndustria df ∧
        totalAgro df ≤ totalIndustria df ∧ totalAdm df ≤ totalIndustria df) ∧
    (maiorSetor df = "Agropecuária" →
      totalServicos df < totalAgro df ∧
        totalIndustria df < totalAgro df ∧ totalAdm df ≤ totalAgro df) ∧
    (maiorSetor df = "Administração" →
      totalServicos df < totalAdm df ∧
        totalIndustria df < totalAdm df ∧ totalAgro df < totalAdm df) :=
  maiorSetorQuad_spec (totalServicos df) (totalIndustria df) (totalAgro df)
    (totalAdm df)

/-- C3 witness: on the counterexample slice the amended tie-break facts hold
for the reported sector "Indústria". -/
theorem C3_witness :
    totalServicos [mkFato 2020 100 "Alfa" 10 10 5 0 0 0 none none]
        < totalIndustria [mkFato 2020 100 "Alfa" 10 10 5 0 0 0 none none] ∧
      totalAgro [mkFato 2020 100 "Alfa" 10 10 5 0 0 0 none none]
        ≤ totalIndustria [mkFato 2020 100 "Alfa" 10 10 5 0 0 0 none none] ∧
      totalAdm [mkFato 2020 100 "Alfa" 10 10 5 0 0 0 none none]
        ≤ totalIndustria [mkFato 2020 100 "Alfa" 10 10 5 0 0 0 none none] :=
  (C3_amended [mkFato 2020 100 "Alfa" 10 10 5 0 0 0 none none]).2.1
    (by
      rw [maiorSetor]
      have hs : totalServicos [mkFato 2020 100 "Alfa" 10 10 5 0 0 0 none none]
          = 5 := by simp [totalServicos, sumBy, mkFato]
      have hi : totalIndustria [mkFato 2020 100 "Alfa" 10 10 5 0 0 0 none none]
          = 10 := by simp [totalIndustria, sumBy, mkFato]
      have ha : totalAgro [mkFato 2020 100 "Alfa" 10 10 5 0 0 0 none none]
          = 10 := by simp [totalAgro, sumBy, mkFato]
      have hd : totalAdm [mkFato 2020 100 "Alfa" 10 10 5 0 0 0 none none]
          = 0 := by simp [totalAdm, sumBy, mkFato]
      rw [hs, hi, ha, hd]
      rw [maiorSetorQuad, pyMax]
      norm_num [List.foldl, pyMaxStep])

/-- Line 257: the sum of the GDP column over the slice. -/
def totalPib (df : List Fato) : ℚ := sumBy df (fun r => r.vl_pib)

/-- Line 259: the sum of the estimated-population column (the derived column
of lines 243-247). -/
def somaPopulacao (df : List Fato) : Int := (df.map populacaoEstimada).sum

/-- Line 262: the mean of the per-capita column over the slice. -/
def mediaPerCapta (df : List Fato) : ℚ :=
  sumBy df (fun r => r.vl_pib_per_capta) / (df.length : ℚ)

/-- Lines 259-262: the per-capita KPI: the GDP sum over the population sum
when the latter is positive, otherwise the mean of the per-capita column. -/
def pibPerCapitaUltimo (df : List Fato) : ℚ :=
  if 0 < somaPopulacao df then totalPib df / (somaPopulacao df : ℚ)
  else mediaPerCapta df

/-- C4: a final-year slice with one row (GDP 0, per-capita 5) has population
sum 0, and the code reports the per-capita mean 5, not the claimed 0. -/
theorem C4_counterexample :
    pibPerCapitaUltimo [mkFato 2020 100 "Alfa" 0 0 0 0 0 5 none none] = 5 ∧
      (5 : ℚ) ≠ 0 := by
  have hpop : populacaoEstimada (mkFato 2020 100 "Alfa" 0 0 0 0 0 5 none none)
      = 0 := by
    rw [populacaoEstimada, if_pos (by norm_num [mkFato])]
    have hq : (mkFato 2020 100 "Alfa" 0 0 0 0 0 5 none none).vl_pib /
        (mkFato 2020 100 "Alfa" 0 0 0 0 0 5 none none).vl_pib_per_capta
        = ((0 : Int) : ℚ) := by norm_num [mkFato]
    rw [hq, ratTrunc_intCast]
  constructor
  · rw [pibPerCapitaUltimo, if_neg (by simp [somaPopulacao, hpop])]
    simp [mediaPerCapta, sumBy, mkFato]
  · norm_num

/-- C4 (amended): the per-capita KPI equals the GDP sum divided by the
estimated-population sum when that sum is positive; when the population sum
is not positive it equals the mean of the per-capita column over the slice
(not 0). -/
theorem C4_amended (df : List Fato) :
    (0 < somaPopulacao df →
      pibPerCapitaUltimo df = totalPib df / (somaPopulacao df : ℚ)) ∧
    (somaPopulacao df ≤ 0 → pibPerCapitaUltimo df = mediaPerCapta df) := by
  constructor
  · intro h
    rw [pibPerCapitaUltimo, if_pos h]
  · intro h
    rw [pibPerCapitaUltimo, if_neg (not_lt.mpr h)]

/-- C4 witness: a slice with one row (GDP 10, per-capita 2) has population
sum 5, so the KPI is the ratio of the sums. -/
theorem C4_witness :
    pibPerCapitaUltimo [mkFato 2020 100 "Alfa" 0 0 0 0 10 2 none none]
        = totalPib [mkFato 2020 100 "Alfa" 0 0 0 0 10 2 none none] /
          ((somaPopulacao [mkFato 2020 100 "Alfa" 0 0 0 0 10 2 none none]
            : Int) : ℚ) :=
  (C4_amended [mkFato 2020 100 "Alfa" 0 0 0 0 10 2 none none]).1
    (by
      have hpop :
          populacaoEstimada (mkFato 2020 100 "Alfa" 0 0 0 0 10 2 none none)
            = 5 := by
        rw [populacaoEstimada, if_pos (by norm_num [mkFato])]
        have hq : (mkFato 2020 100 "Alfa" 0 0 0 0 10 2 none none).vl_pib /
            (mkFato 2020 100 "Alfa" 0 0 0 0 10 2 none none).vl_pib_per_capta
            = ((5 : Int) : ℚ) := by norm_num [mkFato]
        rw [hq, ratTrunc_intCast]
      simp [somaPopulacao, hpop])

/-- Line 308: nunique over the municipality-name column: the number of
distinct municipality *names* in the slice. -/
def municipiosAnalisados (df : List Fato) : Nat :=
  ((df.map (fun r => r.nome_municipio)).dedup).length

/-- C5: two rows for distinct municipality codes 100 and 200 sharing the name
"Gêmeo" are counted once by the code, while the claim (distinct codes)
demands two. -/
theorem C5_counterexample :
    municipiosAnalisados
        [mkFato 2020 100 "Gêmeo" 0 0 0 0 0 0 none none,
          mkFato 2020 200 "Gêmeo" 0 0 0 0 0 0 none none] = 1 ∧
      (([mkFato 2020 100 "Gêmeo" 0 0 0 0 0 0 none none,
          mkFato 2020 200 "Gêmeo" 0 0 0 0 0 0 none none].map
          (fun r => r.codigo_municipio_dv)).dedup).length = 2 := by
  constructor
  · simp [municipiosAnalisados, mkFato, List.dedup]
  · simp [mkFato, List.dedup]

/-- C5 (amended): the municipality-count KPI equals the number of distinct
municipality *names* occurring in the final-year slice, so two distinct
municipalities sharing a name are counted once. -/
theorem C5_amended (df : List Fato) :
    municipiosAnalisados df = (df.map (fun r => r.nome_municipio)).toFinset.card :=
  (List.card_toFinset _).symm

/-- The two values of the `tipo_visualizacao` radio button (lines 655-659). -/
inductive TipoVisualizacao where
  | total : TipoVisualizacao
  | perCapita : TipoVisualizacao
  deriving DecidableEq

/-- The metric column chosen in lines 327-331, 374-381, 518-525. -/
def valorCol (tipo : TipoVisualizacao) (r : Fato) : ℚ :=
  match tipo with
  | TipoVisualizacao.total => r.vl_pib
  | TipoVisualizacao.perCapita => r.vl_pib_per_capta

/-- The group keys of the groupby over the year column: the distinct years in ascending
order (pandas sorts group keys). -/
def anosOrdenados (df : List Fato) : List Int :=
  List.insertionSort (fun x y => x ≤ y) ((df.map (fun r => r.ano_pib)).dedup)

/-- Lines 327-332: `df_evolucao`, one row per year with either the sum of
`vl_pib` or the mean of `vl_pib_per_capta` over that year rows. -/
def dfEvolucao (df : List Fato) (tipo : TipoVisualizacao) : List (Int × ℚ) :=
  (anosOrdenados df).map (fun y =>
    match tipo with
    | TipoVisualizacao.total =>
        (y, sumBy (df.filter (fun r => r.ano_pib == y)) (fun r => r.vl_pib))
    | TipoVisualizacao.perCapita =>
        (y, sumBy (df.filter (fun r => r.ano_pib == y))
            (fun r => r.vl_pib_per_capta) /
          ((df.filter (fun r => r.ano_pib == y)).length : ℚ)))

/-- A pandas float cell of the growth-rate column: a finite number, +inf,
-inf or NaN. -/
inductive PdVal where
  | nan : PdVal
  | inf : PdVal
  | ninf : PdVal
  | val : ℚ → PdVal
  deriving DecidableEq

/-- One step of `pct_change() * 100` in IEEE semantics over exact values:
`(cur - prev) / prev * 100`, which for a zero predecessor is NaN when the
current value is also zero and a signed infinity otherwise. -/
def pctChange100 (prev cur : ℚ) : PdVal :=
  if prev = 0 then
    if cur = 0 then PdVal.nan
    else if 0 < cur then PdVal.inf
    else PdVal.ninf
  else PdVal.val ((cur - prev) / prev * 100)

/-- Tail of the `taxa_crescimento` column, threading the previous value. -/
def taxaAux (prev : ℚ) : List (Int × ℚ) → List (Int × PdVal)
  | [] => []
  | (y, v) :: rest => (y, pctChange100 prev v) :: taxaAux v rest

/-- Line 353: `df_evolucao[y_col].pct_change() * 100`; the first row has no
predecessor and gets NaN. -/
def taxaCrescimento : List (Int × ℚ) → List (Int × PdVal)
  | [] => []
  | (y, v) :: rest => (y, PdVal.nan) :: taxaAux v rest

/-- `dropna()` keeps a growth cell iff it is not NaN; infinities survive. -/
def naoNaN : PdVal → Bool
  | PdVal.nan => false
  | PdVal.inf => true
  | PdVal.ninf => true
  | PdVal.val _ => true

/-- Lines 352-367: the growth bar chart is produced only when the evolution
series has more than one row, and is drawn over `df_evolucao.dropna()`. -/
def graficoTaxa (evol : List (Int × ℚ)) : List (Int × PdVal) :=
  if 1 < evol.length then
    (taxaCrescimento evol).filter (fun p => naoNaN p.2)
  else []

/-- The consecutive pairs of a series. -/
def consecutivos : List (Int × ℚ) → List ((Int × ℚ) × (Int × ℚ))
  | [] => []
  | [_] => []
  | p :: q :: rest => (p, q) :: consecutivos (q :: rest)

/-- One consecutive pair of the amended growth series: the finite
percentage when the predecessor value is non-zero, omission when predecessor
and current values are both zero, a signed infinite marker otherwise. -/
def crescPasso (pq : (Int × ℚ) × (Int × ℚ)) : Option (Int × PdVal) :=
  if pq.1.2 = 0 then
    if pq.2.2 = 0 then none
    else if 0 < pq.2.2 then some (pq.2.1, PdVal.inf)
    else some (pq.2.1, PdVal.ninf)
  else some (pq.2.1, PdVal.val ((pq.2.2 - pq.1.2) / pq.1.2 * 100))

/-- The amended growth series, written from the words of the amendment via the
consecutive pairs of the evolution series; the first year never appears. -/
def crescimentoEsperado (evol : List (Int × ℚ)) : List (Int × PdVal) :=
  (consecutivos evol).filterMap crescPasso

/-- The dropna-filtered tail of the growth column agrees with the amended
description, whatever the previous value is. -/
theorem taxaAux_filter_eq (l : List (Int × ℚ)) :
    ∀ y0 prev, (taxaAux prev l).filter (fun p => naoNaN p.2)
      = crescimentoEsperado ((y0, prev) :: l) := by
  induction l with
  | nil => intro y0 prev; rfl
  | cons hd tl ih =>
    intro y0 prev
    obtain ⟨y, v⟩ := hd
    have htl := ih y v
    rw [taxaAux, List.filter_cons]
    rw [crescimentoEsperado, consecutivos]
    by_cases hp : prev = 0
    · by_cases hv : v = 0
      · have hpc : pctChange100 prev v = PdVal.nan := by
          rw [pctChange100, if_pos hp, if_pos hv]
        have hstep : crescPasso ((y0, prev), (y, v)) = none := by
          show (if prev = 0 then
              if v = 0 then none
              else if 0 < v then some (y, PdVal.inf) else some (y, PdVal.ninf)
            else some (y, PdVal.val ((v - prev) / prev * 100))) = none
          rw [if_pos hp, if_pos hv]
        rw [hpc, if_neg (by simp [naoNaN]), List.filterMap_cons_none hstep, htl,
          crescimentoEsperado]
      · by_cases hpos : 0 < v
        · have hpc : pctChange100 prev v = PdVal.inf := by
            rw [pctChange100, if_pos hp, if_neg hv, if_pos hpos]
          have hstep : crescPasso ((y0, prev), (y, v)) = some (y, PdVal.inf) := by
            show (if prev = 0 then
                if v = 0 then none
                else if 0 < v then some (y, PdVal.inf) else some (y, PdVal.ninf)
              else some (y, PdVal.val ((v - prev) / prev * 100)))
                = some (y, PdVal.inf)
            rw [if_pos hp, if_neg hv, if_pos hpos]
          rw [hpc, if_pos (by simp [naoNaN]), List.filterMap_cons_some hstep, htl,
            crescimentoEsperado]
        · have hpc : pctChange100 prev v = PdVal.ninf := by
            rw [pctChange100, if_pos hp, if_neg hv, if_neg hpos]
          have hstep : crescPasso ((y0, prev), (y, v)) = some (y, PdVal.ninf) := by
            show (if prev = 0 then
                if v = 0 then none
                else if 0 < v then some (y, PdVal.inf) else some (y, PdVal.ninf)
              else some (y, PdVal.val ((v - prev) / prev * 100)))
                = some (y, PdVal.ninf)
            rw [if_pos hp, if_neg hv, if_neg hpos]
          rw [hpc, if_pos (by simp [naoNaN]), List.filterMap_cons_some hstep, htl,
            crescimentoEsperado]
    · have hpc : pctChange100 prev v = PdVal.val ((v - prev) / prev * 100) := by
        rw [pctChange100, if_neg hp]
      have hstep : crescPasso ((y0, prev), (y, v))
          = some (y, PdVal.val ((v - prev) / prev * 100)) := by
        show (if prev = 0 then
            if v = 0 then none
            else if 0 < v then some (y, PdVal.inf) else some (y, PdVal.ninf)
          else some (y, PdVal.val ((v - prev) / prev * 100)))
            = some (y, PdVal.val ((v - prev) / prev * 100))
        rw [if_neg hp]
      rw [hpc, if_pos (by simp [naoNaN]), List.filterMap_cons_some hstep, htl,
        crescimentoEsperado]

/-- C6 (amended): the rendered growth series equals the amended description:
the finite percentage for years whose predecessor value is non-zero, nothing
for the first year or when predecessor and current values are both zero, and
an infinite (not omitted) entry when only the predecessor value is zero. -/
theorem C6_amended (evol : List (Int × ℚ)) :
    graficoTaxa evol = crescimentoEsperado evol := by
  cases evol with
  | nil => rfl
  | cons p rest =>
    cases rest with
    | nil =>
      obtain ⟨y, v⟩ := p
      rfl
    | cons q rest2 =>
      obtain ⟨y, v⟩ := p
      rw [graficoTaxa, if_pos (by simp)]
      rw [taxaCrescimento, List.filter_cons]
      rw [if_neg (by simp [naoNaN])]
      exact taxaAux_filter_eq (q :: rest2) y v

/-- C6: the fact table with GDP 0 in 2001 and GDP 5 in 2002 produces the
evolution series [(2001, 0), (2002, 5)], and the growth chart for it contains
the year 2002 with an infinite value: a year whose predecessor value is zero
is not omitted (and the value is infinite), contradicting the claim. -/
theorem C6_counterexample :
    dfEvolucao
        [mkFato 2001 100 "Alfa" 0 0 0 0 0 0 none none,
          mkFato 2002 100 "Alfa" 0 0 0 0 5 0 none none]
        TipoVisualizacao.total = [(2001, 0), (2002, 5)] ∧
      graficoTaxa [(2001, 0), (2002, 5)] = [(2002, PdVal.inf)] := by
  constructor
  · rw [dfEvolucao, anosOrdenados]
    simp only [mkFato, List.dedup, List.insertionSort, List.orderedInsert,
      List.filter, List.map, sumBy, List.sum_cons, List.sum_nil]
    norm_num
  · rw [graficoTaxa, if_pos (by simp)]
    rw [taxaCrescimento, taxaAux, taxaAux]
    rw [pctChange100, if_pos rfl, if_neg (by norm_num), if_pos (by norm_num)]
    rfl

/-- Line 527: dropna over the subset latitude, longitude and the metric
column.  The metric columns `vl_pib` / `vl_pib_per_capta` are total
(never NULL) in this data model, so the surviving rows are exactly those with
both coordinates present. -/
def dfGeoValid (df : List Fato) : List Fato :=
  df.filter (fun r => r.latitude.isSome && r.longitude.isSome)

/-- Lines 533-551: the point map renders one point per surviving row, sized
and colored by its metric value. -/
def pontosMapa (df : List Fato) (tipo : TipoVisualizacao) :
    List (Fato × ℚ) :=
  (dfGeoValid df).map (fun r => (r, valorCol tipo r))

/-- The display columns of the data table (lines 581-592). -/
structure LinhaTabela where
  ano : Int
  municipio : String
  uf : String
  pib : ℚ
  pibPerCapta : ℚ
  agropecuaria : ℚ
  industria : ℚ
  servicos : ℚ
  administracao : ℚ
  deriving DecidableEq

/-- The projection of one fact row onto the display columns. -/
def linhaTabela (r : Fato) : LinhaTabela where
  ano := r.ano_pib
  municipio := r.nome_municipio
  uf := r.sigla_uf
  pib := r.vl_pib
  pibPerCapta := r.vl_pib_per_capta
  agropecuaria := r.vl_agropecuaria
  industria := r.vl_industria
  servicos := r.vl_servicos
  administracao := r.vl_administracao

/-- `criar_tabela_dados` (lines 577-614): when the flag is set, every filtered
row is shown, projected onto the display columns; no coordinate filtering is
applied. -/
def criarTabelaDados (df : List Fato) (mostrar : Bool) : List LinhaTabela :=
  if mostrar then df.map linhaTabela else []

/-- Line 383: `df_ultimo_ano.sort_values(valor_col, ascending=False)
.head(num_ranking)`; again no coordinate filtering. -/
def dfRanking (df : List Fato) (tipo : TipoVisualizacao) (n : Nat) :
    List Fato :=
  (List.insertionSort (fun x y => valorCol tipo y ≤ valorCol tipo x) df).take n

/-- C9: the point-map output consists of exactly the rows with both
coordinates present, each tagged with its metric value, while any row of the
slice — in particular one missing a coordinate — appears in the data table
and is eligible for the ranking (it is listed whenever the ranking size
covers the slice). -/
theorem C9_geographic (df : List Fato) (tipo : TipoVisualizacao) (r : Fato)
    (v : ℚ) (n : Nat) :
    ((r, v) ∈ pontosMapa df tipo ↔
      r ∈ df ∧ r.latitude.isSome = true ∧ r.longitude.isSome = true ∧
        v = valorCol tipo r) ∧
    (r ∈ df → linhaTabela r ∈ criarTabelaDados df true) ∧
    (r ∈ df → df.length ≤ n → r ∈ dfRanking df tipo n) := by
  refine ⟨⟨fun hm => ?_, fun hm => ?_⟩, fun hd => ?_, fun hd hn => ?_⟩
  · rcases List.mem_map.mp hm with ⟨x, hx, hxe⟩
    rcases List.mem_filter.mp hx with ⟨hxd, hcond⟩
    rcases Prod.mk.injEq .. ▸ hxe with ⟨hxr, hvv⟩
    subst hxr
    rcases Bool.and_eq_true .. ▸ hcond with ⟨hlat, hlon⟩
    exact ⟨hxd, hlat, hlon, hvv.symm⟩
  · rcases hm with ⟨hd, hlat, hlon, hv⟩
    subst hv
    exact List.mem_map.mpr
      ⟨r, List.mem_filter.mpr ⟨hd, by rw [hlat, hlon]; rfl⟩, rfl⟩
  · rw [criarTabelaDados, if_pos rfl]
    exact List.mem_map.mpr ⟨r, hd, rfl⟩
  · rw [dfRanking,
      List.take_of_length_le (by rw [List.length_insertionSort]; exact hn)]
    exact (List.mem_insertionSort _).mpr hd

/-- A row with both coordinates. -/
def fatoComCoord : Fato :=
  mkFato 2020 100 "Alfa" 0 0 0 0 10 2 (some (-46)) (some (-23))

/-- A row missing its latitude. -/
def fatoSemLat : Fato :=
  mkFato 2020 200 "Beta" 0 0 0 0 20 4 (some (-46)) none

/-- The two-row final-year slice of the C9 witness. -/
def df9 : List Fato := [fatoComCoord, fatoSemLat]

/-- C9 witness: on the concrete slice, the latitude-less row is absent from
the point map yet present in the data table and in the size-2 ranking. -/
theorem C9_witness :
    (fatoSemLat, valorCol TipoVisualizacao.total fatoSemLat)
        ∉ pontosMapa df9 TipoVisualizacao.total ∧
      linhaTabela fatoSemLat ∈ criarTabelaDados df9 true ∧
      fatoSemLat ∈ dfRanking df9 TipoVisualizacao.total 2 := by
  refine ⟨fun hm => ?_, ?_, ?_⟩
  · have h := (C9_geographic df9 TipoVisualizacao.total fatoSemLat
      (valorCol TipoVisualizacao.total fatoSemLat) 2).1.mp hm
    have hlat := h.2.1
    simp [fatoSemLat, mkFato] at hlat
  · exact (C9_geographic df9 TipoVisualizacao.total fatoSemLat 0 2).2.1
      (by simp [df9])
  · exact (C9_geographic df9 TipoVisualizacao.total fatoSemLat 0 2).2.2
      (by simp [df9]) (by simp [df9])

/-- Modelled from the spec: a `QueryCache` entry holds the payload and its
creation time (section 3, `CacheEntry`); the TTL-keyed caching itself is
provided by the framework decorators of lines 176-177, 190, 196, 201 and
215 (`st.cache_data`) and has no body inside the repository. -/
structure CacheEntry (α : Type) where
  payload : α
  created_at : Nat

/-- Modelled from the spec: a lookup is a hit iff an entry for the
fingerprint exists and `now - created_at < ttl`; an expired entry is treated
as absent (section 4.3). -/
def cacheLookup {α : Type} (cache : List (String × CacheEntry α))
    (fp : String) (now ttl : Nat) : Option α :=
  match cache.find? (fun p => p.1 == fp) with
  | none => none
  | some p => if now - p.2.created_at < ttl then some p.2.payload else none

/-- Modelled from the spec: `get_or_compute(fingerprint, ttl, compute_fn)`
(section 4.3): on a hit the stored payload is returned and the compute
function is not invoked; on a miss it is invoked once and the result stored
with the current time.  The returned flag records whether the compute
function was invoked. -/
def getOrCompute {α : Type} (cache : List (String × CacheEntry α))
    (fp : String) (ttl now : Nat) (g : Unit → α) :
    α × List (String × CacheEntry α) × Bool :=
  match cacheLookup cache fp now ttl with
  | some v => (v, cache, false)
  | none => (g (), (fp, ⟨g (), now⟩) :: cache, true)

/-- C2: starting from a cache with no live entry for the fingerprint, the
first call invokes the compute function; a second call before the TTL has
elapsed does not invoke it and returns the stored payload (one invocation in
total); a call after the TTL has elapsed treats the entry as absent and
invokes it again. -/
theorem C2_cache (α : Type) (c0 : List (String × CacheEntry α)) (fp : String)
    (ttl : Nat) (g : Unit → α) (t0 t1 t2 : Nat)
    (hmiss : cacheLookup c0 fp t0 ttl = none)
    (hfresh : t1 - t0 < ttl) (hstale : ttl ≤ t2 - t0) :
    (getOrCompute c0 fp ttl t0 g).2.2 = true ∧
    (getOrCompute (getOrCompute c0 fp ttl t0 g).2.1 fp ttl t1 g).2.2
        = false ∧
    (getOrCompute (getOrCompute c0 fp ttl t0 g).2.1 fp ttl t1 g).1
        = (getOrCompute c0 fp ttl t0 g).1 ∧
    (getOrCompute (getOrCompute c0 fp ttl t0 g).2.1 fp ttl t2 g).2.2
        = true := by
  have h1 : getOrCompute c0 fp ttl t0 g
      = (g (), (fp, ⟨g (), t0⟩) :: c0, true) := by
    rw [getOrCompute, hmiss]
  have hfind : ((fp, (⟨g (), t0⟩ : CacheEntry α)) :: c0).find?
      (fun p => p.1 == fp) = some (fp, ⟨g (), t0⟩) :=
    List.find?_cons_of_pos _ (by simp)
  have hlook1 : cacheLookup ((fp, (⟨g (), t0⟩ : CacheEntry α)) :: c0) fp t1 ttl
      = some (g ()) := by
    rw [cacheLookup, hfind]
    exact if_pos hfresh
  have hlook2 : cacheLookup ((fp, (⟨g (), t0⟩ : CacheEntry α)) :: c0) fp t2 ttl
      = none := by
    rw [cacheLookup, hfind]
    exact if_neg (not_lt.mpr hstale)
  refine ⟨by rw [h1], ?_, ?_, ?_⟩
  · rw [h1]
    show (getOrCompute ((fp, ⟨g (), t0⟩) :: c0) fp ttl t1 g).2.2 = false
    rw [getOrCompute, hlook1]
  · rw [h1]
    show (getOrCompute ((fp, ⟨g (), t0⟩) :: c0) fp ttl t1 g).1 = g ()
    rw [getOrCompute, hlook1]
  · rw [h1]
    show (getOrCompute ((fp, ⟨g (), t0⟩) :: c0) fp ttl t2 g).2.2 = true
    rw [getOrCompute, hlook2]

/-- C2 witness: with an empty cache, fingerprint "k", TTL 10, a second call
at time 5 reuses the single computation of the first call at time 0, and a
third call at time 20 recomputes. -/
theorem C2_cache_witness :
    (getOrCompute ([] : List (String × CacheEntry Nat)) "k" 10 0
        (fun _ => 42)).2.2 = true ∧
    (getOrCompute (getOrCompute ([] : List (String × CacheEntry Nat)) "k" 10 0
        (fun _ => 42)).2.1 "k" 10 5 (fun _ => 42)).2.2 = false ∧
    (getOrCompute (getOrCompute ([] : List (String × CacheEntry Nat)) "k" 10 0
        (fun _ => 42)).2.1 "k" 10 5 (fun _ => 42)).1
      = (getOrCompute ([] : List (String × CacheEntry Nat)) "k" 10 0
        (fun _ => 42)).1 ∧
    (getOrCompute (getOrCompute ([] : List (String × CacheEntry Nat)) "k" 10 0
        (fun _ => 42)).2.1 "k" 10 20 (fun _ => 42)).2.2 = true :=
  C2_cache Nat [] "k" 10 (fun _ => 42) 0 5 20 rfl (by decide) (by decide)

end DashPIB
